import Mathlib

/-!
Verification of the mcp-telegram-notifier repository.

The development shallowly embeds the dispatch/validation core of the
repository: `src/services/telegramService.ts` (the `TelegramService` class
with `sendMessage`, `sendPhoto`, `sendDocument`, `sendVideo`,
`handleTelegramError`, `isUrl`, `fileExists`), `src/tools/telegram.ts`
(the four MCP tool handlers) and `src/server.ts` (`telegramPost`,
`getOrThrow`, `format`, `registerApiTool`).

Effects are made explicit: the filesystem is a predicate `String → Bool`
(the result of `fs.promises.access`), the network is a function from the
HTTP request actually issued to the outcome axios reports, and a thrown
JavaScript exception is the `Except.error` case carrying the error
message.  JavaScript strings are Lean `String`s, JSON documents are the
`JsonValue` inductive, and JavaScript truthiness is modelled explicitly.
-/

set_option maxHeartbeats 1000000

/-- JSON values as produced and consumed by the service (model of the
JavaScript values that flow into `JSON.stringify` and out of axios). -/
inductive JsonValue where
  | jnull
  | jbool (b : Bool)
  | jnum (n : Int)
  | jstr (s : String)
  | jarr (xs : List JsonValue)
  | jobj (fields : List (String × JsonValue))

/-- JavaScript truthiness of a JSON value (`null`, `false`, `0` and `""`
are falsy; every array and object is truthy). -/
def jvTruthy : JsonValue → Bool
  | .jnull => false
  | .jbool b => b
  | .jnum n => n != 0
  | .jstr s => !s.isEmpty
  | .jarr _ => true
  | .jobj _ => true

/-- Whether a JSON value is a string (text) rather than a structured value. -/
def JsonValue.isStr : JsonValue → Bool
  | .jstr _ => true
  | _ => false

/-- JavaScript truthiness of an optional string (an omitted argument is
`undefined`, which is falsy; the empty string is falsy too). -/
def jsTruthy : Option String → Bool
  | none => false
  | some s => !s.isEmpty

/-- Escape of one character inside a JSON string literal, as performed by
`JSON.stringify` (the `\uXXXX` form for other control characters is not
needed by any string in this development and is left unescaped). -/
def jsonEscapeChar (c : Char) : String :=
  if c = '"' then "\\\""
  else if c = '\\' then "\\\\"
  else if c = '\n' then "\\n"
  else if c = '\t' then "\\t"
  else if c = '\r' then "\\r"
  else String.singleton c

/-- Escape of a whole string for a JSON string literal. -/
def jsonEscape (s : String) : String :=
  s.data.foldl (fun acc c => acc ++ jsonEscapeChar c) ""

mutual
/-- Model of `JSON.stringify` (compact form; the service only ever
stringifies on one line, via `handleTelegramError`). -/
def jsonStringify : JsonValue → String
  | .jnull => "null"
  | .jbool true => "true"
  | .jbool false => "false"
  | .jnum n => toString n
  | .jstr s => "\"" ++ jsonEscape s ++ "\""
  | .jarr xs => "[" ++ jsonStringifyList xs ++ "]"
  | .jobj fields => "\x7b" ++ jsonStringifyFields fields ++ "\x7d"

/-- Comma-separated serialization of array elements. -/
def jsonStringifyList : List JsonValue → String
  | [] => ""
  | [x] => jsonStringify x
  | x :: xs => jsonStringify x ++ "," ++ jsonStringifyList xs

/-- Comma-separated serialization of object fields. -/
def jsonStringifyFields : List (String × JsonValue) → String
  | [] => ""
  | [(k, v)] => "\"" ++ jsonEscape k ++ "\":" ++ jsonStringify v
  | (k, v) :: fs => "\"" ++ jsonEscape k ++ "\":" ++ jsonStringify v ++ "," ++ jsonStringifyFields fs
end

/-!
Model of the WHATWG `URL` constructor used by `TelegramService.isUrl`
(`new URL(str)` with no base).  The model follows the URL Standard's basic
URL parser on the aspects that decide success or failure: input trimming,
the scheme state, the special-scheme authority requirements (non-empty
valid host for `http`, `https`, `ws`, `wss`, `ftp`), the lax authority of
non-special schemes, and the always-successful opaque-path parse of a
non-special scheme without `//`.  Percent-encoding validity and IDNA
host mapping are not modelled; no claim depends on them.
-/

/-- C0 control or space, removed from both ends of the input by the URL
parser before parsing. -/
def isC0OrSpace (c : Char) : Bool := c.toNat ≤ 0x20

/-- ASCII tab or newline, removed everywhere in the input by the URL
parser. -/
def isTabOrNewline (c : Char) : Bool := c = '\t' || c = '\n' || c = '\r'

/-- Input preparation of the basic URL parser: trim C0/space at both ends,
then remove all tabs and newlines. -/
def urlPrep (cs : List Char) : List Char :=
  ((((cs.dropWhile isC0OrSpace).reverse).dropWhile isC0OrSpace).reverse).filter
    (fun c => !isTabOrNewline c)

/-- Characters allowed after the first character of a URL scheme. -/
def isSchemeChar (c : Char) : Bool :=
  c.isAlphanum || c = '+' || c = '-' || c = '.'

/-- Scheme scanning loop: consume scheme characters until the `:`
delimiter; fail if a non-scheme character appears first or the input ends
without a `:` (a URL without a scheme fails absent a base). -/
def schemeLoop (acc : List Char) : List Char → Option (List Char × List Char)
  | [] => none
  | c :: rest =>
    if c = ':' then some (acc.reverse, rest)
    else if isSchemeChar c then schemeLoop (c :: acc) rest
    else none

/-- Split the input into scheme and remainder; the first character of the
scheme must be an ASCII letter. -/
def splitScheme : List Char → Option (List Char × List Char)
  | [] => none
  | c :: rest => if c.isAlpha then schemeLoop [c] rest else none

/-- Special schemes other than `file` (these require a non-empty host). -/
def isSpecialScheme (s : String) : Bool :=
  s = "http" || s = "https" || s = "ws" || s = "wss" || s = "ftp"

/-- Forbidden host code points of the URL Standard (subset relevant to
syntactic success). -/
def isForbiddenHostChar (c : Char) : Bool :=
  c = '\x00' || c = ' ' || c = '#' || c = '/' || c = ':' || c = '<' ||
  c = '>' || c = '?' || c = '@' || c = '[' || c = '\\' || c = ']' ||
  c = '^' || c = '|'

/-- Part of a list after its last occurrence of a separator (the whole
list when the separator does not occur); used for the `@` userinfo split
and the `:` port split, both of which the URL parser resolves at the last
occurrence. -/
def afterLast (sep : Char) (cs : List Char) : List Char :=
  ((cs.reverse.takeWhile (fun c => c ≠ sep))).reverse

/-- Part of a list before its last occurrence of a separator (the whole
list when the separator does not occur). -/
def beforeLast (sep : Char) (cs : List Char) : List Char :=
  if cs.contains sep then
    (cs.reverse.dropWhile (fun c => c ≠ sep)).reverse.dropLast
  else cs

/-- Digits-to-number reading of a port; validity requires all digits and a
value below 2^16. -/
def portOk (cs : List Char) : Bool :=
  cs.isEmpty ||
    (cs.all Char.isDigit &&
      (cs.foldl (fun n c => n * 10 + (c.toNat - 48)) 0) < 65536)

/-- Validity of a host-and-port fragment: an `[`-opened host must close
its bracket (IPv6 form); otherwise the host splits from an optional port
at the last `:` and must avoid forbidden host characters, and the port
must be numeric and in range.  `allowEmpty` distinguishes non-special
schemes (empty host permitted) from special non-`file` schemes. -/
def hostPortOk (allowEmpty : Bool) (cs : List Char) : Bool :=
  match cs with
  | [] => allowEmpty
  | '[' :: rest => rest.contains ']'
  | _ =>
    let host := beforeLast ':' cs
    let port := afterLast ':' cs
    (if cs.contains ':' then portOk port else true) &&
    (!host.isEmpty || allowEmpty) &&
    host.all (fun c => !isForbiddenHostChar c)

/-- Authority validity after the scheme of a URL with slashes: strip the
leading slash run (the parser's special-authority-ignore-slashes state),
stop the authority at a path/query/fragment delimiter, drop userinfo at
the last `@`, and check host and port. -/
def authorityOk (allowEmpty : Bool) (rest : List Char) : Bool :=
  let afterSlashes := rest.dropWhile (fun c => c = '/' || c = '\\')
  let authority := afterSlashes.takeWhile
    (fun c => c ≠ '/' && c ≠ '\\' && c ≠ '?' && c ≠ '#')
  hostPortOk allowEmpty (afterLast '@' authority)

/-- Success predicate of the basic URL parser on prepared input: a scheme
is mandatory; `file` URLs always parse; other special schemes need a
valid non-empty authority; non-special schemes need a valid (possibly
empty) authority when the remainder starts with `//` and otherwise take
the always-successful opaque path. -/
def urlParseOk (cs : List Char) : Bool :=
  match splitScheme cs with
  | none => false
  | some (sch, rest) =>
    let scheme := String.mk (sch.map Char.toLower)
    if scheme = "file" then true
    else if isSpecialScheme scheme then authorityOk false rest
    else
      match rest with
      | '/' :: '/' :: rest2 => authorityOk true rest2
      | _ => true

/-- Model of `TelegramService.isUrl`: `new URL(str)` succeeds.  The source
returns `true` exactly when the constructor does not throw. -/
def isUrl (s : String) : Bool :=
  urlParseOk (urlPrep s.data)

/-- Classification of a media reference string, in the fixed order the
send operations test it: the URL check first, the filesystem-existence
check second, else unresolvable.  `fs` is the filesystem-existence
predicate (`TelegramService.fileExists`). -/
inductive ResolvedKind where
  | Remote
  | Local
  | Unresolvable
deriving DecidableEq

/-- Resolution of a media reference, as performed by the
`if (await this.isUrl(x)) ... else if (await this.fileExists(x)) ... else`
chain shared by `sendPhoto`, `sendDocument` and `sendVideo`. -/
def resolve (fs : String → Bool) (s : String) : ResolvedKind :=
  if isUrl s then .Remote else if fs s then .Local else .Unresolvable

/-- Spec-side definition, for the refinement comparison of claim C1 only:
a string that "parses as an absolute URL with both a scheme and an
authority", read literally from the spec's words — a valid scheme
followed by `//` and a non-empty valid host. -/
def specAbsoluteUrl (s : String) : Bool :=
  match splitScheme (urlPrep s.data) with
  | none => false
  | some (_, rest) =>
    match rest with
    | '/' :: '/' :: rest2 =>
      let authority := (rest2.dropWhile (fun c => c = '/' || c = '\\')).takeWhile
        (fun c => c ≠ '/' && c ≠ '\\' && c ≠ '?' && c ≠ '#')
      !(afterLast '@' authority).isEmpty &&
        hostPortOk false (afterLast '@' authority)
    | _ => false


/-!
HTTP request model.  A request records the target endpoint URL and its
body: a JSON object (keys in `JSON.stringify` insertion order, with
`undefined`-valued properties already dropped, as axios serialization
drops them) or a `multipart/form-data` body built by `form.append` calls.
-/

/-- Process configuration from `TelegramConfig` in
`src/services/telegramService.ts`. -/
structure TelegramConfig where
  token : String
  chatId : String

/-- Value of one multipart form field: a plain text field or a binary
stream field (a `fs.createReadStream(path)`), whose filename metadata is
the optional third argument of `form.append`. -/
inductive FormValue where
  | text (s : String)
  | stream (path : String) (filename : Option String)

/-- One multipart form field, in `form.append` order. -/
structure FormPart where
  name : String
  value : FormValue

/-- Request body: JSON object or multipart form. -/
inductive RequestBody where
  | json (fields : List (String × JsonValue))
  | multipart (parts : List FormPart)

/-- An HTTP POST actually issued by `axios.post`. -/
structure HttpRequest where
  url : String
  body : RequestBody

/-- Names of the fields of a multipart form. -/
def formNames (parts : List FormPart) : List String :=
  parts.map (·.name)

/-- Keys of a JSON body. -/
def jsonKeys (fields : List (String × JsonValue)) : List String :=
  fields.map (·.1)

/-- Filename metadata of the stream fields of a multipart form, in
order. -/
def streamFilenames (parts : List FormPart) : List (Option String) :=
  parts.filterMap (fun p =>
    match p.value with
    | .stream _ fn => some fn
    | .text _ => none)

/-- The axios response attached to a failed request (`error.response`),
when the upstream answered at all: HTTP status and decoded body
(`undefined` when the body is empty). -/
structure AxiosResponse where
  status : Nat
  data : Option JsonValue

/-- The error value axios rejects with (also the shape of a plain thrown
`Error`, whose `response` property is absent): `TelegramError` in
`src/services/telegramService.ts`. -/
structure AxiosError where
  response : Option AxiosResponse
  message : String

/-- Outcome of one `axios.post`: a fulfilled response carrying the decoded
body, or a rejection carrying the error value. -/
inductive PostOutcome where
  | success (data : JsonValue)
  | failure (e : AxiosError)

/-- The network as a function from the request issued to the outcome
axios reports for it. -/
abbrev Network := HttpRequest → PostOutcome

/-- Parse mode enumeration of the tool schemas and service signatures. -/
inductive ParseMode where
  | Markdown
  | MarkdownV2
  | HTML

/-- The wire string of a parse mode. -/
def ParseMode.str : ParseMode → String
  | .Markdown => "Markdown"
  | .MarkdownV2 => "MarkdownV2"
  | .HTML => "HTML"

/-- Base of the Telegram Bot API, `TELEGRAM_API_BASE` in the source. -/
def TELEGRAM_API_BASE : String := "https://api.telegram.org"

/-- Endpoint URL of one bot method, as interpolated by the service:
`TELEGRAM_API_BASE/bot<token>/<method>`. -/
def botEndpoint (token method : String) : String :=
  TELEGRAM_API_BASE ++ "/bot" ++ token ++ "/" ++ method

/-- Model of `TelegramService.handleTelegramError`: the message of the
`Error` it throws — the generic failure text concatenated with the
original message, then (when the error carries truthy response data) a
newline, the literal `Response: `, and the JSON-serialized data. -/
def handleTelegramError (e : AxiosError) (operation : String) : String :=
  "Failed to " ++ operation ++ ": " ++ e.message ++
    (match e.response with
     | some r =>
       match r.data with
       | some d => if jvTruthy d then "\nResponse: " ++ jsonStringify d else ""
       | none => ""
     | none => "")

/-- Character-list prefix test (needle, haystack). -/
def hasPrefixL : List Char → List Char → Bool
  | [], _ => true
  | _ :: _, [] => false
  | a :: as, b :: bs => a = b && hasPrefixL as bs

/-- Character-list substring test (needle, haystack). -/
def containsAt (needle : List Char) : List Char → Bool
  | [] => hasPrefixL needle []
  | c :: rest => hasPrefixL needle (c :: rest) || containsAt needle rest

/-- Model of JavaScript `hay.includes(needle)`. -/
def strContains (hay needle : String) : Bool :=
  containsAt needle.data hay.data

/-- Catch clause shared in shape by the three media operations: rethrow
the error unchanged when its message contains the kind-specific not-found
marker, otherwise wrap it through `handleTelegramError`.  The result is
the message of the exception that leaves the operation. -/
def mediaCatch (marker operation : String) (e : AxiosError) : String :=
  if strContains e.message marker then e.message
  else handleTelegramError e operation

/-- JSON body of a remote-reference media send: the object literal
`\x7bchat_id, <field>: ref, caption: caption, parse_mode: parseMode\x7d`
after serialization, which drops the `caption` key exactly when the
caption argument is `undefined` (`parse_mode` is never dropped: the
parameter has a default and is always a string). -/
def mediaJsonBody (cfg : TelegramConfig) (field ref : String)
    (caption : Option String) (pm : ParseMode) : List (String × JsonValue) :=
  [("chat_id", .jstr cfg.chatId), (field, .jstr ref)] ++
    (match caption with
     | some c => [("caption", .jstr c)]
     | none => []) ++
    [("parse_mode", .jstr pm.str)]

/-- Caption block of the multipart branches: the
`if (caption) \x7b append caption; append parse_mode \x7d` statement
shared verbatim by `sendPhoto`, `sendDocument` and `sendVideo` (JavaScript
truthiness: an empty-string caption appends nothing). -/
def captionBlock (caption : Option String) (pm : ParseMode) : List FormPart :=
  if jsTruthy caption then
    [⟨"caption", .text (caption.getD "")⟩, ⟨"parse_mode", .text pm.str⟩]
  else []

/-- Multipart form of a local photo upload: `chat_id`, the `photo` stream
with no filename argument, then the caption block. -/
def photoForm (cfg : TelegramConfig) (path : String)
    (caption : Option String) (pm : ParseMode) : List FormPart :=
  [⟨"chat_id", .text cfg.chatId⟩, ⟨"photo", .stream path none⟩] ++
    captionBlock caption pm

/-- Multipart form of a local document upload: `chat_id`, the `document`
stream — with the caller's filename as metadata when the filename argument
is truthy, without it otherwise — then the caption block. -/
def documentForm (cfg : TelegramConfig) (path : String)
    (caption : Option String) (filename : Option String)
    (pm : ParseMode) : List FormPart :=
  [⟨"chat_id", .text cfg.chatId⟩,
   ⟨"document", .stream path (if jsTruthy filename then filename else none)⟩] ++
    captionBlock caption pm

/-- Multipart form of a local video upload, identical in shape to the
document form with the `video` field name. -/
def videoForm (cfg : TelegramConfig) (path : String)
    (caption : Option String) (filename : Option String)
    (pm : ParseMode) : List FormPart :=
  [⟨"chat_id", .text cfg.chatId⟩,
   ⟨"video", .stream path (if jsTruthy filename then filename else none)⟩] ++
    captionBlock caption pm

/-- Run of `TelegramService.sendMessage`: the list of HTTP requests issued
and the outcome (`Except.error` is the thrown exception's message).  The
catch clause always wraps through `handleTelegramError` with operation
`send message`. -/
def sendMessageRun (net : Network) (cfg : TelegramConfig)
    (text : String) (pm : ParseMode) : List HttpRequest × Except String Unit :=
  let req : HttpRequest :=
    ⟨botEndpoint cfg.token "sendMessage",
     .json [("chat_id", .jstr cfg.chatId), ("text", .jstr text),
            ("parse_mode", .jstr pm.str)]⟩
  match net req with
  | .success _ => ([req], .ok ())
  | .failure e => ([req], .error (handleTelegramError e "send message"))

/-- Error message thrown by the not-found branch of `sendPhoto`. -/
def photoNotFoundMsg (photo : String) : String :=
  "Photo not found: " ++ photo ++
    ". Provide a valid file path, HTTP URL, or base64 data."

/-- Error message thrown by the not-found branch of `sendDocument`. -/
def documentNotFoundMsg (document : String) : String :=
  "Document not found: " ++ document ++ ". Provide a valid file path or HTTP URL."

/-- Error message thrown by the not-found branch of `sendVideo`. -/
def videoNotFoundMsg (video : String) : String :=
  "Video not found: " ++ video ++ ". Provide a valid file path or HTTP URL."

/-- Run of `TelegramService.sendPhoto`: URL branch posts the JSON body,
file branch posts the multipart form, else branch throws the not-found
error without issuing a request; every exception passes the catch clause
with marker `Photo not found` and operation `send photo`. -/
def sendPhotoRun (fs : String → Bool) (net : Network) (cfg : TelegramConfig)
    (photo : String) (caption : Option String) (pm : ParseMode) :
    List HttpRequest × Except String Unit :=
  if isUrl photo then
    let req : HttpRequest :=
      ⟨botEndpoint cfg.token "sendPhoto", .json (mediaJsonBody cfg "photo" photo caption pm)⟩
    match net req with
    | .success _ => ([req], .ok ())
    | .failure e => ([req], .error (mediaCatch "Photo not found" "send photo" e))
  else if fs photo then
    let req : HttpRequest :=
      ⟨botEndpoint cfg.token "sendPhoto", .multipart (photoForm cfg photo caption pm)⟩
    match net req with
    | .success _ => ([req], .ok ())
    | .failure e => ([req], .error (mediaCatch "Photo not found" "send photo" e))
  else
    ([], .error (mediaCatch "Photo not found" "send photo"
      ⟨none, photoNotFoundMsg photo⟩))

/-- Run of `TelegramService.sendDocument`, with the optional filename
override of the multipart branch. -/
def sendDocumentRun (fs : String → Bool) (net : Network) (cfg : TelegramConfig)
    (document : String) (caption : Option String) (filename : Option String)
    (pm : ParseMode) : List HttpRequest × Except String Unit :=
  if isUrl document then
    let req : HttpRequest :=
      ⟨botEndpoint cfg.token "sendDocument",
       .json (mediaJsonBody cfg "document" document caption pm)⟩
    match net req with
    | .success _ => ([req], .ok ())
    | .failure e => ([req], .error (mediaCatch "Document not found" "send document" e))
  else if fs document then
    let req : HttpRequest :=
      ⟨botEndpoint cfg.token "sendDocument",
       .multipart (documentForm cfg document caption filename pm)⟩
    match net req with
    | .success _ => ([req], .ok ())
    | .failure e => ([req], .error (mediaCatch "Document not found" "send document" e))
  else
    ([], .error (mediaCatch "Document not found" "send document"
      ⟨none, documentNotFoundMsg document⟩))

/-- Run of `TelegramService.sendVideo`, identical in shape to
`sendDocumentRun` with the `video` field and marker. -/
def sendVideoRun (fs : String → Bool) (net : Network) (cfg : TelegramConfig)
    (video : String) (caption : Option String) (filename : Option String)
    (pm : ParseMode) : List HttpRequest × Except String Unit :=
  if isUrl video then
    let req : HttpRequest :=
      ⟨botEndpoint cfg.token "sendVideo",
       .json (mediaJsonBody cfg "video" video caption pm)⟩
    match net req with
    | .success _ => ([req], .ok ())
    | .failure e => ([req], .error (mediaCatch "Video not found" "send video" e))
  else if fs video then
    let req : HttpRequest :=
      ⟨botEndpoint cfg.token "sendVideo",
       .multipart (videoForm cfg video caption filename pm)⟩
    match net req with
    | .success _ => ([req], .ok ())
    | .failure e => ([req], .error (mediaCatch "Video not found" "send video" e))
  else
    ([], .error (mediaCatch "Video not found" "send video"
      ⟨none, videoNotFoundMsg video⟩))

/-!
Tool dispatch layer of `src/tools/telegram.ts`.  Each registered handler
awaits the service call and, on success, returns the fixed confirmation
envelope; the handlers contain no try/catch, so a service exception
leaves the handler (`Except.error`).  The optional `parseMode` argument
is defaulted with `parseMode || 'MarkdownV2'` at the call.
-/

/-- One text content block of a tool response. -/
structure TextContent where
  text : String
deriving DecidableEq

/-- Tool response envelope: `\x7b content: [\x7b type: 'text', text \x7d] \x7d`. -/
structure ToolOutput where
  content : List TextContent
deriving DecidableEq

/-- Handler of the `send_markdown_message_as_telegram_bot` tool in
`src/tools/telegram.ts`: the zod schema defaults `parseMode` and the
destructuring default applies when it is still `undefined`. -/
def messageToolHandler (net : Network) (cfg : TelegramConfig)
    (messageText : String) (parseMode : Option ParseMode) :
    Except String ToolOutput :=
  match (sendMessageRun net cfg messageText (parseMode.getD .MarkdownV2)).2 with
  | .ok () => .ok ⟨[⟨"Message sent successfully"⟩]⟩
  | .error e => .error e

/-- Handler of the `send_telegram_photo` tool. -/
def photoToolHandler (fs : String → Bool) (net : Network) (cfg : TelegramConfig)
    (photo : String) (caption : Option String) (parseMode : Option ParseMode) :
    Except String ToolOutput :=
  match (sendPhotoRun fs net cfg photo caption (parseMode.getD .MarkdownV2)).2 with
  | .ok () => .ok ⟨[⟨"Photo sent successfully"⟩]⟩
  | .error e => .error e

/-- Handler of the `send_telegram_document` tool. -/
def documentToolHandler (fs : String → Bool) (net : Network) (cfg : TelegramConfig)
    (document : String) (caption : Option String) (filename : Option String)
    (parseMode : Option ParseMode) : Except String ToolOutput :=
  match (sendDocumentRun fs net cfg document caption filename
      (parseMode.getD .MarkdownV2)).2 with
  | .ok () => .ok ⟨[⟨"Document sent successfully"⟩]⟩
  | .error e => .error e

/-- Handler of the `send_telegram_video` tool. -/
def videoToolHandler (fs : String → Bool) (net : Network) (cfg : TelegramConfig)
    (video : String) (caption : Option String) (filename : Option String)
    (parseMode : Option ParseMode) : Except String ToolOutput :=
  match (sendVideoRun fs net cfg video caption filename
      (parseMode.getD .MarkdownV2)).2 with
  | .ok () => .ok ⟨[⟨"Video sent successfully"⟩]⟩
  | .error e => .error e

/-!
Upstream client and tool boundary of `src/server.ts`.
-/

/-- Result type `TelegramResponse` of `src/server.ts`: a success carrying
the decoded data, or an error record with optional upstream status and a
message that JavaScript leaves untyped (a string or the raw structured
response body). -/
inductive TelegramResponse where
  | data (d : JsonValue)
  | err (status : Option Nat) (message : JsonValue)

/-- JavaScript `a || b` on an optional JSON value against a fallback. -/
def jsOr (a : Option JsonValue) (b : JsonValue) : JsonValue :=
  match a with
  | some v => if jvTruthy v then v else b
  | none => b

/-- Model of `telegramPost` in `src/server.ts`.  The missing-token throw
happens inside the try block, so its own catch converts it to an error
result (`error.response` is absent on a plain `Error`, hence no status
and the fallback to `error.message`); a failed axios call yields status
`error.response?.status` and message `error.response?.data ||
error.message`.  The function never throws: its result type is total. -/
def telegramPost (envToken : Option String) (net : Network)
    (path : String) (data : RequestBody) : TelegramResponse :=
  match envToken with
  | none => .err none (.jstr "Missing TELEGRAM_BOT_TOKEN")
  | some token =>
    match net ⟨TELEGRAM_API_BASE ++ "/bot" ++ token ++ path, data⟩ with
    | .success d => .data d
    | .failure e =>
      .err (e.response.map (·.status))
        (jsOr (e.response.bind (·.data)) (.jstr e.message))

/-- Model of `format` in `src/server.ts`: a string is wrapped as-is, any
other value is JSON-serialized (the two-space pretty-printing indentation
of `JSON.stringify(data, null, 2)` is not modelled; no claim depends on
the whitespace). -/
def formatOutput (data : JsonValue) : ToolOutput :=
  match data with
  | .jstr s => ⟨[⟨s⟩]⟩
  | v => ⟨[⟨jsonStringify v⟩]⟩

/-- Model of the handler `registerApiTool` wraps around a tool's logic in
`src/server.ts`: run the logic, format its result, and catch any thrown
error into the `Unhandled error: ` text envelope.  The result type is
total: no exception leaves this boundary. -/
def registerApiToolHandler {α : Type} (logic : α → Except String JsonValue)
    (args : α) : ToolOutput :=
  match logic args with
  | .ok r => formatOutput r
  | .error e => formatOutput (.jstr ("Unhandled error: " ++ e))

/-!
Shared concrete fixtures for witnesses and counterexamples.
-/

/-- A concrete configuration. -/
def cfg0 : TelegramConfig := ⟨"TOKEN", "CHAT"⟩

/-- A network on which every request succeeds with body `null`. -/
def netOk : Network := fun _ => .success .jnull

/-- The upstream 403 response body of the spec's scenario. -/
def forbiddenBody : JsonValue :=
  .jobj [("ok", .jbool false), ("description", .jstr "Forbidden")]

/-- The axios error of a 403 rejection carrying `forbiddenBody`. -/
def err403 : AxiosError :=
  ⟨some ⟨403, some forbiddenBody⟩, "Request failed with status code 403"⟩

/-- A network on which every request fails with `err403`. -/
def netFail403 : Network := fun _ => .failure err403

/-- A filesystem on which no file exists. -/
def fsEmpty : String → Bool := fun _ => false

/-!
Helper lemmas on the substring test and the error wrapper.
-/

/-- A list is a prefix of itself followed by anything. -/
theorem hasPrefixL_append (n rest : List Char) : hasPrefixL n (n ++ rest) = true := by
  induction n with
  | nil => rfl
  | cons a as ih => simp [hasPrefixL, ih]

/-- A prefix occurrence is an occurrence. -/
theorem containsAt_of_hasPrefixL (n hay : List Char) (h : hasPrefixL n hay = true) :
    containsAt n hay = true := by
  cases hay with
  | nil => simpa [containsAt] using h
  | cons c rest => simp [containsAt, h]

/-- An occurrence after any prefix is an occurrence. -/
theorem containsAt_append (n pre sfx : List Char) :
    containsAt n (pre ++ (n ++ sfx)) = true := by
  induction pre with
  | nil => simpa using containsAt_of_hasPrefixL n (n ++ sfx) (hasPrefixL_append n sfx)
  | cons c cs ih => simp [containsAt, ih]

/-- A string contains its own leading fragment. -/
theorem strContains_needle_append (needle rest : String) :
    strContains (needle ++ rest) needle = true := by
  unfold strContains
  rw [String.data_append]
  exact containsAt_of_hasPrefixL _ _ (hasPrefixL_append _ _)

/-- A string contains a middle fragment. -/
theorem strContains_concat3 (pre mid sfx : String) :
    strContains (pre ++ mid ++ sfx) mid = true := by
  unfold strContains
  rw [String.data_append, String.data_append, List.append_assoc]
  exact containsAt_append _ _ _

/-- A string contains its first fragment (left-associated form). -/
theorem strContains_head (needle a b : String) :
    strContains (needle ++ a ++ b) needle = true := by
  rw [String.append_assoc]
  exact strContains_needle_append needle (a ++ b)

/-- The wrapped message of `handleTelegramError` is strictly longer than
the original message, hence never equal to it. -/
theorem handleTelegramError_ne (e : AxiosError) (op : String) :
    handleTelegramError e op ≠ e.message := by
  intro h
  have hlen := congrArg String.length h
  unfold handleTelegramError at hlen
  rw [String.length_append, String.length_append, String.length_append,
    String.length_append] at hlen
  rw [show ("Failed to " : String).length = 10 from rfl,
    show (": " : String).length = 2 from rfl] at hlen
  omega

/-- The not-found message of `sendPhoto` contains the kind marker. -/
theorem photoNotFoundMsg_marker (s : String) :
    strContains (photoNotFoundMsg s) "Photo not found" = true := by
  unfold photoNotFoundMsg
  rw [show ("Photo not found: " : String) = "Photo not found" ++ ": " from rfl,
    String.append_assoc "Photo not found" ": " s]
  exact strContains_head _ _ _

/-- The not-found message of `sendDocument` contains the kind marker. -/
theorem documentNotFoundMsg_marker (s : String) :
    strContains (documentNotFoundMsg s) "Document not found" = true := by
  unfold documentNotFoundMsg
  rw [show ("Document not found: " : String) = "Document not found" ++ ": " from rfl,
    String.append_assoc "Document not found" ": " s]
  exact strContains_head _ _ _

/-- The not-found message of `sendVideo` contains the kind marker. -/
theorem videoNotFoundMsg_marker (s : String) :
    strContains (videoNotFoundMsg s) "Video not found" = true := by
  unfold videoNotFoundMsg
  rw [show ("Video not found: " : String) = "Video not found" ++ ": " from rfl,
    String.append_assoc "Video not found" ": " s]
  exact strContains_head _ _ _

/-!
Claim C1.
-/

/-- C1 (counterexample): the claim states that the media operations take
the JSON/URL transport branch if and only if the input parses as an
absolute URL with both a scheme and an authority.  At the concrete input
`mailto:user@example.com` — a string with a scheme but no authority — the
URL constructor succeeds, so `sendPhoto` takes the JSON branch even
though the spec-side absolute-URL-with-authority predicate rejects the
string and no file exists at it. -/
theorem c1_counterexample :
    specAbsoluteUrl "mailto:user@example.com" = false ∧
    isUrl "mailto:user@example.com" = true ∧
    (sendPhotoRun fsEmpty netOk cfg0 "mailto:user@example.com" none .MarkdownV2).1 =
      [⟨botEndpoint cfg0.token "sendPhoto",
        .json (mediaJsonBody cfg0 "photo" "mailto:user@example.com" none .MarkdownV2)⟩] :=
  ⟨by decide, by decide, rfl⟩

/-- C1 (amended): the media operations classify `s` as Remote — taking
the JSON/URL transport branch — if and only if `new URL(s)` succeeds,
which requires a scheme but requires an authority only for special
schemes; the URL check is evaluated before the filesystem-existence
check, so the classification holds regardless of whether a file at `s`
exists (the filesystem predicate is universally quantified). -/
theorem c1_remote_iff_urlparse (fs : String → Bool) (net : Network)
    (cfg : TelegramConfig) (s : String) (caption fn : Option String)
    (pm : ParseMode) :
    (resolve fs s = .Remote ↔ isUrl s = true) ∧
    (isUrl s = true →
      (sendPhotoRun fs net cfg s caption pm).1 =
        [⟨botEndpoint cfg.token "sendPhoto",
          .json (mediaJsonBody cfg "photo" s caption pm)⟩] ∧
      (sendDocumentRun fs net cfg s caption fn pm).1 =
        [⟨botEndpoint cfg.token "sendDocument",
          .json (mediaJsonBody cfg "document" s caption pm)⟩] ∧
      (sendVideoRun fs net cfg s caption fn pm).1 =
        [⟨botEndpoint cfg.token "sendVideo",
          .json (mediaJsonBody cfg "video" s caption pm)⟩]) := by
  constructor
  · unfold resolve
    by_cases h : isUrl s = true
    · simp [h]
    · simp only [Bool.not_eq_true] at h
      by_cases hf : fs s = true <;> simp [h, hf]
  · intro h
    refine ⟨?_, ?_, ?_⟩
    · unfold sendPhotoRun
      rw [if_pos h]
      cases hn : net ⟨botEndpoint cfg.token "sendPhoto",
        .json (mediaJsonBody cfg "photo" s caption pm)⟩ <;> simp [hn]
    · unfold sendDocumentRun
      rw [if_pos h]
      cases hn : net ⟨botEndpoint cfg.token "sendDocument",
        .json (mediaJsonBody cfg "document" s caption pm)⟩ <;> simp [hn]
    · unfold sendVideoRun
      rw [if_pos h]
      cases hn : net ⟨botEndpoint cfg.token "sendVideo",
        .json (mediaJsonBody cfg "video" s caption pm)⟩ <;> simp [hn]

/-- C1 (witness): the amended theorem applied at a concrete URL, with its
hypothesis discharged by evaluation. -/
theorem c1_remote_iff_urlparse_witness :
    (sendPhotoRun fsEmpty netOk cfg0 "https://example.com/cat.png" none .MarkdownV2).1 =
      [⟨botEndpoint cfg0.token "sendPhoto",
        .json (mediaJsonBody cfg0 "photo" "https://example.com/cat.png" none .MarkdownV2)⟩] :=
  ((c1_remote_iff_urlparse fsEmpty netOk cfg0 "https://example.com/cat.png"
    none none .MarkdownV2).2 (by decide)).1

/-!
Claim C2.
-/

/-- C2 (counterexample): the claim states that a captionless remote-URL
photo call produces a JSON body with exactly `chat_id` and `photo` and no
`parse_mode` key.  At the concrete input `https://example.com/cat.png`
with no caption, the issued request's JSON body carries a third key,
`parse_mode`, because the `parseMode` parameter has a default and is
serialized unconditionally on the remote branch. -/
theorem c2_counterexample :
    (sendPhotoRun fsEmpty netOk cfg0 "https://example.com/cat.png" none .MarkdownV2).1 =
      [⟨botEndpoint cfg0.token "sendPhoto",
        .json [("chat_id", .jstr "CHAT"),
               ("photo", .jstr "https://example.com/cat.png"),
               ("parse_mode", .jstr "MarkdownV2")]⟩] ∧
    "parse_mode" ∈
      jsonKeys (mediaJsonBody cfg0 "photo" "https://example.com/cat.png" none .MarkdownV2) :=
  ⟨rfl, by decide⟩

/-- C2 (amended): in the multipart (local-file) branch, the body contains
the `caption` and `parse_mode` fields exactly when the supplied caption
is truthy; in the remote JSON branch, the body always contains
`parse_mode` (the parameter is defaulted and serialized
unconditionally) and contains `caption` exactly when a caption argument
was supplied; so the captionless remote photo body is
`chat_id, photo, parse_mode`. -/
theorem c2_caption_parse_mode (cfg : TelegramConfig) (ref : String)
    (caption fn : Option String) (pm : ParseMode) :
    ("parse_mode" ∈ jsonKeys (mediaJsonBody cfg "photo" ref caption pm) ∧
     "parse_mode" ∈ jsonKeys (mediaJsonBody cfg "document" ref caption pm) ∧
     "parse_mode" ∈ jsonKeys (mediaJsonBody cfg "video" ref caption pm)) ∧
    ("caption" ∈ jsonKeys (mediaJsonBody cfg "photo" ref caption pm) ↔
      caption.isSome = true) ∧
    (("caption" ∈ formNames (photoForm cfg ref caption pm) ↔ jsTruthy caption = true) ∧
     ("parse_mode" ∈ formNames (photoForm cfg ref caption pm) ↔ jsTruthy caption = true)) ∧
    (("caption" ∈ formNames (documentForm cfg ref caption fn pm) ↔ jsTruthy caption = true) ∧
     ("parse_mode" ∈ formNames (documentForm cfg ref caption fn pm) ↔ jsTruthy caption = true)) ∧
    (("caption" ∈ formNames (videoForm cfg ref caption fn pm) ↔ jsTruthy caption = true) ∧
     ("parse_mode" ∈ formNames (videoForm cfg ref caption fn pm) ↔ jsTruthy caption = true)) := by
  refine ⟨⟨?_, ?_, ?_⟩, ?_, ?_, ?_, ?_⟩
  · cases caption <;> simp [mediaJsonBody, jsonKeys]
  · cases caption <;> simp [mediaJsonBody, jsonKeys]
  · cases caption <;> simp [mediaJsonBody, jsonKeys]
  · cases caption <;> simp [mediaJsonBody, jsonKeys]
  all_goals
    by_cases h : jsTruthy caption = true <;>
      simp [photoForm, documentForm, videoForm, captionBlock, formNames, h]

/-- C2 (witness): the amended theorem projected at a concrete captionless
remote call. -/
theorem c2_caption_parse_mode_witness :
    "parse_mode" ∈
      jsonKeys (mediaJsonBody cfg0 "photo" "https://example.com/cat.png" none .MarkdownV2) :=
  (c2_caption_parse_mode cfg0 "https://example.com/cat.png" none none .MarkdownV2).1.1

/-!
Claim C3.
-/

/-- C3 (counterexample): the claim states that on an expected upstream
failure the client's result carries a message that concatenates a generic
failure text with the response body serialized as text.  At a concrete
403 rejection whose body is the object `ok:false, description:Forbidden`,
`telegramPost` returns `ok:false` with status 403 but its message is the
raw structured body itself — not a string at all, hence neither
serialized as text nor prefixed by a generic failure text. -/
theorem c3_counterexample :
    telegramPost (some "TOKEN") netFail403 "/sendMessage"
        (.json [("chat_id", .jstr "CHAT"), ("text", .jstr "hi"),
                ("parse_mode", .jstr "MarkdownV2")]) =
      .err (some 403) forbiddenBody ∧
    forbiddenBody.isStr = false :=
  ⟨rfl, rfl⟩

/-- C3 (amended): for every upstream failure, `telegramPost` does not
throw: it returns an error result carrying the upstream HTTP status code
when available and, as message, the raw response data when that is
truthy (left in its structured form, with no generic prefix and no
serialization) and otherwise the transport error's own message; a missing
bot token is also swallowed by the same catch and returned as an error
result with no status rather than thrown. -/
theorem c3_telegramPost_no_throw (token : String) (net : Network)
    (path : String) (data : RequestBody) (e : AxiosError)
    (h : net ⟨TELEGRAM_API_BASE ++ "/bot" ++ token ++ path, data⟩ = .failure e) :
    telegramPost (some token) net path data =
      .err (e.response.map (·.status)) (jsOr (e.response.bind (·.data)) (.jstr e.message)) ∧
    telegramPost none net path data = .err none (.jstr "Missing TELEGRAM_BOT_TOKEN") := by
  constructor
  · simp only [telegramPost]
    rw [h]
  · rfl

/-- C3 (witness): the amended theorem applied at the concrete 403
rejection, with the network hypothesis discharged by evaluation. -/
theorem c3_telegramPost_no_throw_witness :
    telegramPost (some "TOKEN") netFail403 "/sendMessage" (.json []) =
      .err (err403.response.map (·.status))
        (jsOr (err403.response.bind (·.data)) (.jstr err403.message)) ∧
    telegramPost none netFail403 "/sendMessage" (.json []) =
      .err none (.jstr "Missing TELEGRAM_BOT_TOKEN") :=
  c3_telegramPost_no_throw "TOKEN" netFail403 "/sendMessage" (.json []) err403 rfl

/-!
Claim C4.
-/

/-- C4: for every input string that neither parses as a URL nor names an
existing file, each media operation issues no HTTP request and fails with
the kind-specific not-found message — which names the resource kind,
contains the literal offending input, and states the accepted input
forms (the exact message equations exhibit the accepted-forms text
verbatim). -/
theorem c4_unresolvable_no_network (fs : String → Bool) (net : Network)
    (cfg : TelegramConfig) (s : String) (caption fn : Option String)
    (pm : ParseMode) (hu : isUrl s = false) (hf : fs s = false) :
    sendPhotoRun fs net cfg s caption pm = ([], .error (photoNotFoundMsg s)) ∧
    sendDocumentRun fs net cfg s caption fn pm = ([], .error (documentNotFoundMsg s)) ∧
    sendVideoRun fs net cfg s caption fn pm = ([], .error (videoNotFoundMsg s)) ∧
    strContains (photoNotFoundMsg s) "Photo not found" = true ∧
    strContains (photoNotFoundMsg s) s = true ∧
    strContains (documentNotFoundMsg s) "Document not found" = true ∧
    strContains (documentNotFoundMsg s) s = true ∧
    strContains (videoNotFoundMsg s) "Video not found" = true ∧
    strContains (videoNotFoundMsg s) s = true := by
  refine ⟨?_, ?_, ?_, photoNotFoundMsg_marker s, strContains_concat3 _ _ _,
    documentNotFoundMsg_marker s, strContains_concat3 _ _ _,
    videoNotFoundMsg_marker s, strContains_concat3 _ _ _⟩
  · unfold sendPhotoRun
    rw [if_neg (by simp [hu]), if_neg (by simp [hf])]
    simp [mediaCatch, photoNotFoundMsg_marker s]
  · unfold sendDocumentRun
    rw [if_neg (by simp [hu]), if_neg (by simp [hf])]
    simp [mediaCatch, documentNotFoundMsg_marker s]
  · unfold sendVideoRun
    rw [if_neg (by simp [hu]), if_neg (by simp [hf])]
    simp [mediaCatch, videoNotFoundMsg_marker s]

/-- C4 (witness): the theorem applied at the spec's concrete scenario
`/no/such/file.mp4` on an empty filesystem. -/
theorem c4_unresolvable_no_network_witness :
    sendPhotoRun fsEmpty netOk cfg0 "/no/such/file.mp4" none .MarkdownV2 =
      ([], .error (photoNotFoundMsg "/no/such/file.mp4")) ∧
    sendDocumentRun fsEmpty netOk cfg0 "/no/such/file.mp4" none none .MarkdownV2 =
      ([], .error (documentNotFoundMsg "/no/such/file.mp4")) ∧
    sendVideoRun fsEmpty netOk cfg0 "/no/such/file.mp4" none none .MarkdownV2 =
      ([], .error (videoNotFoundMsg "/no/such/file.mp4")) ∧
    strContains (photoNotFoundMsg "/no/such/file.mp4") "Photo not found" = true ∧
    strContains (photoNotFoundMsg "/no/such/file.mp4") "/no/such/file.mp4" = true ∧
    strContains (documentNotFoundMsg "/no/such/file.mp4") "Document not found" = true ∧
    strContains (documentNotFoundMsg "/no/such/file.mp4") "/no/such/file.mp4" = true ∧
    strContains (videoNotFoundMsg "/no/such/file.mp4") "Video not found" = true ∧
    strContains (videoNotFoundMsg "/no/such/file.mp4") "/no/such/file.mp4" = true :=
  c4_unresolvable_no_network fsEmpty netOk cfg0 "/no/such/file.mp4" none none
    .MarkdownV2 (by decide) rfl

/-!
Claim C5.
-/

/-- C5 (counterexample): the claim states that any exception raised
during dispatch of any of the four tools is caught at the outermost tool
boundary and returned as text content, never propagating as a thrown
exception.  At the concrete invocation of the photo tool with
`/no/such/file.jpg` on an empty filesystem, the handler registered in
`src/tools/telegram.ts` — which contains no try/catch — lets the
resolution exception leave the handler as a thrown error rather than
returning a text envelope. -/
theorem c5_counterexample :
    photoToolHandler fsEmpty netOk cfg0 "/no/such/file.jpg" none none =
      .error "Photo not found: /no/such/file.jpg. Provide a valid file path, HTTP URL, or base64 data." :=
  rfl

/-- C5 (amended): only the handler wrapper of `registerApiTool` in
`src/server.ts` catches exceptions at the tool boundary, rendering any
thrown error as the `Unhandled error:` text envelope and any success
through `format`; the four handlers of `src/tools/telegram.ts` propagate
every service exception out of the handler unchanged, leaving containment
to the host SDK. -/
theorem c5_tool_boundary {α : Type} (logic : α → Except String JsonValue)
    (args : α) (e' : String) (r : JsonValue) (fs : String → Bool)
    (net : Network) (cfg : TelegramConfig) (text ref : String)
    (caption fn : Option String) (pm : Option ParseMode) (msg : String) :
    (logic args = .error e' →
      registerApiToolHandler logic args = ⟨[⟨"Unhandled error: " ++ e'⟩]⟩) ∧
    (logic args = .ok r → registerApiToolHandler logic args = formatOutput r) ∧
    ((sendMessageRun net cfg text (pm.getD .MarkdownV2)).2 = .error msg →
      messageToolHandler net cfg text pm = .error msg) ∧
    ((sendPhotoRun fs net cfg ref caption (pm.getD .MarkdownV2)).2 = .error msg →
      photoToolHandler fs net cfg ref caption pm = .error msg) ∧
    ((sendDocumentRun fs net cfg ref caption fn (pm.getD .MarkdownV2)).2 = .error msg →
      documentToolHandler fs net cfg ref caption fn pm = .error msg) ∧
    ((sendVideoRun fs net cfg ref caption fn (pm.getD .MarkdownV2)).2 = .error msg →
      videoToolHandler fs net cfg ref caption fn pm = .error msg) := by
  refine ⟨?_, ?_, ?_, ?_, ?_, ?_⟩
  · intro h
    unfold registerApiToolHandler
    rw [h]
    rfl
  · intro h
    unfold registerApiToolHandler
    rw [h]
  · intro h
    unfold messageToolHandler
    rw [h]
  · intro h
    unfold photoToolHandler
    rw [h]
  · intro h
    unfold documentToolHandler
    rw [h]
  · intro h
    unfold videoToolHandler
    rw [h]

/-- C5 (witness): the amended theorem applied at a concrete failing logic
and a concrete failing photo invocation, each hypothesis discharged by
evaluation. -/
theorem c5_tool_boundary_witness :
    registerApiToolHandler (fun _ : Unit => Except.error "boom") () =
      ⟨[⟨"Unhandled error: boom"⟩]⟩ ∧
    photoToolHandler fsEmpty netOk cfg0 "/no/such/photo.jpg" none none =
      .error (photoNotFoundMsg "/no/such/photo.jpg") :=
  ⟨(c5_tool_boundary (fun _ : Unit => Except.error "boom") () "boom" .jnull
      fsEmpty netOk cfg0 "" "/no/such/photo.jpg" none none none "x").1 rfl,
   (c5_tool_boundary (fun _ : Unit => Except.error "boom") () "boom" .jnull
      fsEmpty netOk cfg0 "" "/no/such/photo.jpg" none none none
      (photoNotFoundMsg "/no/such/photo.jpg")).2.2.2.1 rfl⟩

/-!
Claim C6.
-/

/-- C6: for local-file uploads, a truthy caller-supplied filename is
reflected as the filename metadata of the binary stream field for the
document and video operations, and the photo operation — whose service
method and tool schema accept no filename input — always uploads its
stream field with no filename metadata. -/
theorem c6_filename_override (cfg : TelegramConfig) (path : String)
    (caption fn : Option String) (pm : ParseMode) (h : jsTruthy fn = true) :
    streamFilenames (documentForm cfg path caption fn pm) = [fn] ∧
    streamFilenames (videoForm cfg path caption fn pm) = [fn] ∧
    streamFilenames (photoForm cfg path caption pm) = [none] := by
  refine ⟨?_, ?_, ?_⟩ <;>
    by_cases hc : jsTruthy caption = true <;>
      simp [documentForm, videoForm, photoForm, streamFilenames, captionBlock, h, hc]

/-- C6 (witness): the theorem applied at the spec's concrete scenario
filename `Q3-Report.pdf`. -/
theorem c6_filename_override_witness :
    streamFilenames (documentForm cfg0 "/tmp/report.pdf" none (some "Q3-Report.pdf") .MarkdownV2) =
      [some "Q3-Report.pdf"] ∧
    streamFilenames (videoForm cfg0 "/tmp/report.pdf" none (some "Q3-Report.pdf") .MarkdownV2) =
      [some "Q3-Report.pdf"] ∧
    streamFilenames (photoForm cfg0 "/tmp/report.pdf" none .MarkdownV2) = [none] :=
  c6_filename_override cfg0 "/tmp/report.pdf" none (some "Q3-Report.pdf")
    .MarkdownV2 (by decide)

/-!
Claim C7.
-/

/-- C7: every successful invocation of one of the four tools returns
exactly the operation's short fixed confirmation string as a single text
block; the upstream response payload never reaches the envelope (the
equations hold for every network, whatever body the upstream returns). -/
theorem c7_fixed_confirmation (fs : String → Bool) (net : Network)
    (cfg : TelegramConfig) (text ref : String) (caption fn : Option String)
    (pm : Option ParseMode) (out : ToolOutput) :
    (messageToolHandler net cfg text pm = .ok out →
      out = ⟨[⟨"Message sent successfully"⟩]⟩) ∧
    (photoToolHandler fs net cfg ref caption pm = .ok out →
      out = ⟨[⟨"Photo sent successfully"⟩]⟩) ∧
    (documentToolHandler fs net cfg ref caption fn pm = .ok out →
      out = ⟨[⟨"Document sent successfully"⟩]⟩) ∧
    (videoToolHandler fs net cfg ref caption fn pm = .ok out →
      out = ⟨[⟨"Video sent successfully"⟩]⟩) := by
  refine ⟨?_, ?_, ?_, ?_⟩
  · intro h
    unfold messageToolHandler at h
    cases hr : (sendMessageRun net cfg text (pm.getD .MarkdownV2)).2 with
    | ok u => rw [hr] at h; simpa using h.symm
    | error e => rw [hr] at h; simp at h
  · intro h
    unfold photoToolHandler at h
    cases hr : (sendPhotoRun fs net cfg ref caption (pm.getD .MarkdownV2)).2 with
    | ok u => rw [hr] at h; simpa using h.symm
    | error e => rw [hr] at h; simp at h
  · intro h
    unfold documentToolHandler at h
    cases hr : (sendDocumentRun fs net cfg ref caption fn (pm.getD .MarkdownV2)).2 with
    | ok u => rw [hr] at h; simpa using h.symm
    | error e => rw [hr] at h; simp at h
  · intro h
    unfold videoToolHandler at h
    cases hr : (sendVideoRun fs net cfg ref caption fn (pm.getD .MarkdownV2)).2 with
    | ok u => rw [hr] at h; simpa using h.symm
    | error e => rw [hr] at h; simp at h

/-- C7 (witness): the theorem applied at concrete successful invocations
on the all-success network. -/
theorem c7_fixed_confirmation_witness :
    (⟨[⟨"Message sent successfully"⟩]⟩ : ToolOutput) =
      ⟨[⟨"Message sent successfully"⟩]⟩ ∧
    (⟨[⟨"Photo sent successfully"⟩]⟩ : ToolOutput) =
      ⟨[⟨"Photo sent successfully"⟩]⟩ :=
  ⟨(c7_fixed_confirmation fsEmpty netOk cfg0 "hi" "https://example.com/cat.png"
      none none none ⟨[⟨"Message sent successfully"⟩]⟩).1 rfl,
   (c7_fixed_confirmation fsEmpty netOk cfg0 "hi" "https://example.com/cat.png"
      none none none ⟨[⟨"Photo sent successfully"⟩]⟩).2.1 rfl⟩

/-!
Claim C8.
-/

/-- C8: every invocation of `sendMessage` issues exactly one upstream
HTTP request — the single `sendMessage` POST with the full JSON body —
whatever the network outcome (success or failure, no retry); two
consecutive invocations with identical input therefore issue two
independent upstream requests. -/
theorem c8_single_request (net : Network) (cfg : TelegramConfig)
    (text : String) (pm : ParseMode) :
    (sendMessageRun net cfg text pm).1 =
      [⟨botEndpoint cfg.token "sendMessage",
        .json [("chat_id", .jstr cfg.chatId), ("text", .jstr text),
               ("parse_mode", .jstr pm.str)]⟩] ∧
    ((sendMessageRun net cfg text pm).1 ++ (sendMessageRun net cfg text pm).1).length = 2 := by
  have h1 : (sendMessageRun net cfg text pm).1 =
      [⟨botEndpoint cfg.token "sendMessage",
        .json [("chat_id", .jstr cfg.chatId), ("text", .jstr text),
               ("parse_mode", .jstr pm.str)]⟩] := by
    unfold sendMessageRun
    cases hn : net ⟨botEndpoint cfg.token "sendMessage",
      .json [("chat_id", .jstr cfg.chatId), ("text", .jstr text),
             ("parse_mode", .jstr pm.str)]⟩ <;> simp [hn]
  exact ⟨h1, by rw [h1]; rfl⟩

/-!
Claim C9.
-/

/-- C9: in the multipart branch of each media operation an empty-string
caption behaves exactly like an omitted caption — the form equals the
caption-omitted form and carries neither a `caption` nor a `parse_mode`
field — because the source tests the caption with JavaScript truthiness
(`if (caption)`), under which the empty string is falsy. -/
theorem c9_empty_caption (cfg : TelegramConfig) (path : String)
    (fn : Option String) (pm : ParseMode) :
    photoForm cfg path (some "") pm = photoForm cfg path none pm ∧
    documentForm cfg path (some "") fn pm = documentForm cfg path none fn pm ∧
    videoForm cfg path (some "") fn pm = videoForm cfg path none fn pm ∧
    (formNames (photoForm cfg path (some "") pm)).contains "caption" = false ∧
    (formNames (photoForm cfg path (some "") pm)).contains "parse_mode" = false ∧
    (formNames (documentForm cfg path (some "") fn pm)).contains "caption" = false ∧
    (formNames (documentForm cfg path (some "") fn pm)).contains "parse_mode" = false ∧
    (formNames (videoForm cfg path (some "") fn pm)).contains "caption" = false ∧
    (formNames (videoForm cfg path (some "") fn pm)).contains "parse_mode" = false := by
  refine ⟨?_, ?_, ?_, ?_, ?_, ?_, ?_, ?_, ?_⟩ <;>
    simp [photoForm, documentForm, videoForm, captionBlock, jsTruthy, formNames,
      show ("" : String).isEmpty = true from rfl]

/-!
Claim C10.
-/

/-- Rethrow-or-wrap specification of the shared catch clause: the result
equals the original message exactly when the message contains the marker,
and otherwise is the `handleTelegramError` wrapping (which is strictly
longer than the original message, hence distinct from it). -/
theorem mediaCatch_spec (marker op : String) (e : AxiosError) :
    (mediaCatch marker op e = e.message ↔ strContains e.message marker = true) ∧
    (strContains e.message marker = false →
      mediaCatch marker op e = handleTelegramError e op) := by
  constructor
  · constructor
    · intro h
      by_cases hc : strContains e.message marker = true
      · exact hc
      · rw [mediaCatch, if_neg (by simpa using hc)] at h
        exact absurd h (handleTelegramError_ne e op)
    · intro h
      rw [mediaCatch, if_pos h]
  · intro h
    rw [mediaCatch, if_neg (by simp [h])]

/-- C10: in each media operation's catch handler, an error is rethrown
unchanged exactly when its message contains the kind-specific marker
(`Photo not found`, `Document not found`, `Video not found`); when the
marker is absent the error is wrapped by `handleTelegramError` (generic
prefix plus serialized response body) — so an upstream failure whose
message happens to contain the marker bypasses the wrapping and passes
through verbatim. -/
theorem c10_rethrow_iff (e : AxiosError) :
    ((mediaCatch "Photo not found" "send photo" e = e.message ↔
        strContains e.message "Photo not found" = true) ∧
     (strContains e.message "Photo not found" = false →
        mediaCatch "Photo not found" "send photo" e =
          handleTelegramError e "send photo")) ∧
    ((mediaCatch "Document not found" "send document" e = e.message ↔
        strContains e.message "Document not found" = true) ∧
     (strContains e.message "Document not found" = false →
        mediaCatch "Document not found" "send document" e =
          handleTelegramError e "send document")) ∧
    ((mediaCatch "Video not found" "send video" e = e.message ↔
        strContains e.message "Video not found" = true) ∧
     (strContains e.message "Video not found" = false →
        mediaCatch "Video not found" "send video" e =
          handleTelegramError e "send video")) :=
  ⟨mediaCatch_spec _ _ e, mediaCatch_spec _ _ e, mediaCatch_spec _ _ e⟩

/-- An upstream axios error whose diagnostic message happens to contain
the photo marker. -/
def upstreamErrWithMarker : AxiosError :=
  ⟨some ⟨400, some (.jstr "Bad Request")⟩,
   "upstream says: Photo not found in album"⟩

/-- C10 (witness): the theorem applied at two concrete errors — an
upstream failure whose message contains the marker passes through
verbatim (bypassing the wrapping), and the 403 error without the marker
is wrapped. -/
theorem c10_rethrow_iff_witness :
    mediaCatch "Photo not found" "send photo" upstreamErrWithMarker =
      upstreamErrWithMarker.message ∧
    mediaCatch "Photo not found" "send photo" err403 =
      handleTelegramError err403 "send photo" :=
  ⟨((c10_rethrow_iff upstreamErrWithMarker).1.1).mpr (by decide),
   ((c10_rethrow_iff err403).1.2) (by decide)⟩
